import Mathlib

set_option maxRecDepth 8000

/-!
Verification of the monthly seller analysis subsystem
(`src/monthly_analysis.py`, class `MonthlySellerAnalyzer`) of the Olist
e-commerce project.  The Python code is shallowly embedded: pandas tables
become lists of records, pandas `Period` months become integers (month
index), monetary amounts and ratings become rationals, and each method of
the analyzer becomes a pure Lean function.
-/

namespace Olist

/-- The five business tiers, ordered `Basic < Bronze < Silver < Gold <
Platinum` (the `tier_order` map of the source assigns them ordinals
0,1,2,3,4). -/
inductive Tier
  | Basic
  | Bronze
  | Silver
  | Gold
  | Platinum
deriving DecidableEq, Repr, Fintype

/-- Ordinal rank of a tier, the `tier_order` dictionary of
`_compare_two_months` / `analyze_seller_trajectory`:
`{'Basic': 0, 'Bronze': 1, 'Silver': 2, 'Gold': 3, 'Platinum': 4}`. -/
def Tier.ord : Tier → ℕ
  | .Basic => 0
  | .Bronze => 1
  | .Silver => 2
  | .Gold => 3
  | .Platinum => 4

/-- Minimum thresholds attached to a tier (`_get_tier_definitions` entries
`{'min_gmv': _, 'min_orders': _, 'min_rating': _}`). -/
structure TierCriteria where
  min_gmv : ℚ
  min_orders : ℚ
  min_rating : ℚ
deriving DecidableEq, Repr

/-- The fixed tier table of `MonthlySellerAnalyzer._get_tier_definitions`,
in the iteration order of the Python dict (highest tier first).  Note the
source's `Basic` entry demands `min_orders = 1`. -/
def tierDefinitions : List (Tier × TierCriteria) :=
  [ (.Platinum, ⟨50000, 200, 4⟩),
    (.Gold, ⟨10000, 50, 7/2⟩),
    (.Silver, ⟨2000, 10, 3⟩),
    (.Bronze, ⟨500, 3, 5/2⟩),
    (.Basic, ⟨0, 1, 0⟩) ]

/-- The membership test of the classifier loop:
`gmv >= criteria['min_gmv'] and orders >= criteria['min_orders'] and
rating >= criteria['min_rating']`. -/
def meets (c : TierCriteria) (gmv orders rating : ℚ) : Prop :=
  c.min_gmv ≤ gmv ∧ c.min_orders ≤ orders ∧ c.min_rating ≤ rating

instance (c : TierCriteria) (gmv orders rating : ℚ) :
    Decidable (meets c gmv orders rating) := by
  unfold meets; infer_instance

/-- The `for tier, criteria in self.tier_definitions.items()` loop of
`_classify_seller`: return the first tier whose criteria are met,
falling through to `'Basic'` after the loop. -/
def classifyLoop (gmv orders rating : ℚ) : List (Tier × TierCriteria) → Tier
  | [] => .Basic
  | (t, c) :: rest =>
    if meets c gmv orders rating then t else classifyLoop gmv orders rating rest

/-- The method `MonthlySellerAnalyzer._classify_seller`, as a function of the three
metrics it reads from the profile row (`total_gmv`, `unique_orders`,
`avg_review_score`). -/
def classifySeller (gmv orders rating : ℚ) : Tier :=
  classifyLoop gmv orders rating tierDefinitions

/-- The canonical threshold table of the spec (section 4.2), which lists
`Basic` with thresholds 0/0/0 (the source's `Basic` entry has
`min_orders = 1`). -/
def canonicalCriteria : Tier → TierCriteria
  | .Platinum => ⟨50000, 200, 4⟩
  | .Gold => ⟨10000, 50, 7/2⟩
  | .Silver => ⟨2000, 10, 3⟩
  | .Bronze => ⟨500, 3, 5/2⟩
  | .Basic => ⟨0, 0, 0⟩

/-- Modelled from the spec's words (section 4.2): iterate tiers from
highest to lowest against the canonical table, assign the first tier whose
thresholds are all met, defaulting to Basic. -/
def specClassify (gmv orders rating : ℚ) : Tier :=
  classifyLoop gmv orders rating
    [ (.Platinum, canonicalCriteria .Platinum),
      (.Gold, canonicalCriteria .Gold),
      (.Silver, canonicalCriteria .Silver),
      (.Bronze, canonicalCriteria .Bronze),
      (.Basic, canonicalCriteria .Basic) ]

/-- Calendar months at month granularity, as an absolute month index: the
arithmetic of `pd.Period(freq='M')` (subtraction of an integer moves that
many calendar months back). -/
abbrev Month := ℤ

/-- One row of the `orders` table after `load_raw_data` attached the
`year_month` column (`order_purchase_timestamp` truncated to the month). -/
structure Order where
  order_id : ℕ
  year_month : Month
deriving DecidableEq, Repr

/-- The expression `start_period = target_period - lookback_months` in
`build_monthly_seller_profile`. -/
def windowStart (target : Month) (lookback : ℕ) : Month :=
  target - lookback

/-- The window filter of `build_monthly_seller_profile`:
`orders[(year_month >= start_period) & (year_month <= target_period)]`. -/
def ordersInWindow (orders : List Order) (target : Month) (lookback : ℕ) : List Order :=
  orders.filter fun o =>
    windowStart target lookback ≤ o.year_month ∧ o.year_month ≤ target

/-- Insertion step of the sort used to model Python's `sorted`. -/
def insertSorted (m : Month) : List Month → List Month
  | [] => [m]
  | x :: xs => if m ≤ x then m :: x :: xs else x :: insertSorted m xs

/-- Insertion sort on month lists (models Python's `sorted`). -/
def sortMonths (l : List Month) : List Month :=
  l.foldr insertSorted []

/-- The method `MonthlySellerAnalyzer.get_available_months`:
`sorted(orders['year_month'].dropna().unique())`. -/
def availableMonths (orders : List Order) : List Month :=
  sortMonths (orders.map (·.year_month)).dedup

/-- One row of the `order_items` table (the columns the analyzer reads). -/
structure OrderItem where
  order_id : ℕ
  seller_id : ℕ
  price : ℚ
deriving DecidableEq, Repr

/-- One row of the `reviews` table (the columns the analyzer reads). -/
structure Review where
  order_id : ℕ
  review_score : ℚ
deriving DecidableEq, Repr

/-- The in-memory snapshot `self.raw_data` loaded by `load_raw_data`:
the tables the profile builder reads.  `sellers` is the list of seller ids
of the raw sellers table. -/
structure RawData where
  sellers : List ℕ
  orders : List Order
  order_items : List OrderItem
  reviews : List Review

/-- The rows of `order_details = orders_filtered.merge(order_items,
on='order_id', how='inner')` that belong to one seller: every (order,
item) pair of the window whose item carries this `seller_id`. -/
def sellerItemsInWindow (rd : RawData) (target : Month) (lookback : ℕ)
    (sid : ℕ) : List (Order × OrderItem) :=
  (ordersInWindow rd.orders target lookback).flatMap fun o =>
    (rd.order_items.filter fun it => it.order_id = o.order_id ∧ it.seller_id = sid).map
      fun it => (o, it)

/-- The `total_gmv` of a seller: `price.sum()` over the seller's window rows
(`_calculate_monthly_sales_metrics`). -/
def sellerGmv (rd : RawData) (target : Month) (lookback : ℕ) (sid : ℕ) : ℚ :=
  ((sellerItemsInWindow rd target lookback sid).map fun p => p.2.price).sum

/-- The `unique_orders` of a seller: `order_id.nunique()` over the seller's
window rows (`_calculate_monthly_sales_metrics`). -/
def sellerUniqueOrders (rd : RawData) (target : Month) (lookback : ℕ) (sid : ℕ) : ℕ :=
  (((sellerItemsInWindow rd target lookback sid).map fun p => p.2.order_id).dedup).length

/-- The review scores matched to a seller's window rows by
`order_details.merge(reviews, on='order_id', how='left')`
(`_calculate_monthly_satisfaction_metrics`); unmatched rows contribute no
score, like pandas NaN skipped by `mean`. -/
def sellerReviewScores (rd : RawData) (target : Month) (lookback : ℕ) (sid : ℕ) : List ℚ :=
  (sellerItemsInWindow rd target lookback sid).flatMap fun p =>
    (rd.reviews.filter fun rv => rv.order_id = p.2.order_id).map fun rv => rv.review_score

/-- The `avg_review_score`: the mean of the matched review scores; a seller
with no matched reviews gets NaN from pandas, turned into 0 by
`_clean_monthly_features`' `fillna(0)`. -/
def sellerAvgReview (rd : RawData) (target : Month) (lookback : ℕ) (sid : ℕ) : ℚ :=
  let scores := sellerReviewScores rd target lookback sid
  if scores.isEmpty then 0 else scores.sum / scores.length

/-- One row of a monthly seller profile, restricted to the columns the
claims are about.  Numeric columns of sellers absent from the window are
already zero-filled (`fillna(0)`). -/
structure ProfileRow where
  seller_id : ℕ
  total_gmv : ℚ
  unique_orders : ℕ
  avg_review_score : ℚ
  is_active : ℕ
  business_tier : Tier
deriving DecidableEq, Repr

/-- The row `build_monthly_seller_profile` produces for one seller of the
raw sellers table: left-merged metrics zero-filled by
`_clean_monthly_features`, `is_active = (total_gmv > 0).astype(int)`, and
`business_tier = _classify_seller(row)`. -/
def mkProfileRow (rd : RawData) (target : Month) (lookback : ℕ) (sid : ℕ) : ProfileRow :=
  let gmv := sellerGmv rd target lookback sid
  let uo := sellerUniqueOrders rd target lookback sid
  let rating := sellerAvgReview rd target lookback sid
  { seller_id := sid
    total_gmv := gmv
    unique_orders := uo
    avg_review_score := rating
    is_active := if 0 < gmv then 1 else 0
    business_tier := classifySeller gmv (uo : ℚ) rating }

/-- The method `MonthlySellerAnalyzer.build_monthly_seller_profile`: `none` models the
early `return pd.DataFrame()` when the window holds no order platform-wide
(in that case nothing is stored in `monthly_profiles`); otherwise one
profile row per row of the raw sellers table. -/
def buildMonthlyProfile (rd : RawData) (target : Month) (lookback : ℕ) :
    Option (List ProfileRow) :=
  if (ordersInWindow rd.orders target lookback).isEmpty then none
  else some (rd.sellers.map (mkProfileRow rd target lookback))

/-- One row of the `merged` frame of `_compare_two_months`: an inner-join
match of a month-1 row and a month-2 row with equal `seller_id`, with
`tier_num` ordinals mapped through `tier_order` and
`tier_change = tier_num_month1 - tier_num_month2`. -/
structure MergedRow where
  seller_id : ℕ
  tier_m1 : Tier
  tier_m2 : Tier
  tier_change : ℤ
deriving DecidableEq, Repr

/-- The merge `df1.merge(df2, on='seller_id', how='inner')` of `_compare_two_months`:
every pair of rows with equal seller id, in the row order of `df1`. -/
def innerJoin (df1 df2 : List ProfileRow) : List MergedRow :=
  df1.flatMap fun r1 =>
    (df2.filter fun r2 => r2.seller_id = r1.seller_id).map fun r2 =>
      { seller_id := r1.seller_id
        tier_m1 := r1.business_tier
        tier_m2 := r2.business_tier
        tier_change := (r1.business_tier.ord : ℤ) - (r2.business_tier.ord : ℤ) }

/-- The dictionary `_compare_two_months` returns in its non-error branch:
summary statistics, the flow matrix (kept as its underlying multiset of
(origin tier, destination tier) observations, origin = month 2 = baseline,
destination = month 1 = target, which is what `pd.crosstab` tabulates),
and the seller lists. -/
structure Comparison where
  month1 : Month
  month2 : Month
  total_sellers : ℕ
  upgraded_count : ℕ
  downgraded_count : ℕ
  stable_count : ℕ
  upgrade_rate : ℚ
  downgrade_rate : ℚ
  stability_rate : ℚ
  flow_matrix : List (Tier × Tier)
  upgraded_sellers : List MergedRow
  downgraded_sellers : List MergedRow
  stable_sellers : List MergedRow
  merged_data : List MergedRow
deriving DecidableEq, Repr

/-- The method `MonthlySellerAnalyzer._compare_two_months` on the two already-built
profile tables (`month1` is the target month, `month2` the baseline):
`none` models the `{'error': ...}` dictionary returned when the join has
no common seller.  Rates are `len(...) / len(merged) * 100` as in the
source. -/
def compareTwoMonths (df1 df2 : List ProfileRow) (month1 month2 : Month) :
    Option Comparison :=
  let merged := innerJoin df1 df2
  if merged.isEmpty then none
  else
    let upgraded := merged.filter fun m => 0 < m.tier_change
    let downgraded := merged.filter fun m => m.tier_change < 0
    let stable := merged.filter fun m => m.tier_change = 0
    some
      { month1 := month1
        month2 := month2
        total_sellers := merged.length
        upgraded_count := upgraded.length
        downgraded_count := downgraded.length
        stable_count := stable.length
        upgrade_rate := (upgraded.length : ℚ) / (merged.length : ℚ) * 100
        downgrade_rate := (downgraded.length : ℚ) / (merged.length : ℚ) * 100
        stability_rate := (stable.length : ℚ) / (merged.length : ℚ) * 100
        flow_matrix := merged.map fun m => (m.tier_m2, m.tier_m1)
        upgraded_sellers := upgraded
        downgraded_sellers := downgraded
        stable_sellers := stable
        merged_data := merged }

/-- Cell (a, b) of the `pd.crosstab` flow matrix over a list of
(origin, destination) tier pairs: the number of joined sellers that moved
from `a` to `b`. -/
def crosstabCell (l : List (Tier × Tier)) (a b : Tier) : ℕ :=
  (l.filter fun p => p.1 = a ∧ p.2 = b).length

/-- Row margin `All` of the crosstab for origin tier `a`. -/
def rowMargin (l : List (Tier × Tier)) (a : Tier) : ℕ :=
  (l.filter fun p => p.1 = a).length

/-- Column margin `All` of the crosstab for destination tier `b`. -/
def colMargin (l : List (Tier × Tier)) (b : Tier) : ℕ :=
  (l.filter fun p => p.2 = b).length

/-- Grand-total cell (`All`, `All`) of the crosstab. -/
def grandTotal (l : List (Tier × Tier)) : ℕ :=
  l.length

/-- The (tier_from, tier_to) observations of `_create_tier_flow_matrix`:
`df1` (earlier month) inner-joined with `df2` (later month) on seller_id,
keeping the two tier columns. -/
def joinTierPairs (df1 df2 : List ProfileRow) : List (Tier × Tier) :=
  (innerJoin df1 df2).map fun m => (m.tier_m1, m.tier_m2)

/-- The method `MonthlySellerAnalyzer._create_tier_flow_matrix`: with fewer than two
months it returns an empty frame (`none` here); otherwise it cross-tabulates
the last two months of the list, `month1 = months_list[-2]` as origin and
`month2 = months_list[-1]` as destination, over their inner join.
`profiles` maps a month to its rows inside `combined_df`. -/
def createTierFlowMatrix (profiles : Month → List ProfileRow)
    (months : List Month) : Option (List (Tier × Tier)) :=
  match months.reverse with
  | m2 :: m1 :: _ => some (joinTierPairs (profiles m1) (profiles m2))
  | _ => none

/-- The dictionary `analyze_period_comparison` returns on success.  A
field is `none` when the companion month was unavailable (the source then
leaves the key at its initial `None`); `some none` in the inner option
models the `{'error': ...}` dictionary of a comparison without common
sellers. -/
structure PeriodComparisonResult where
  target_month : Month
  mom_comparison : Option (Option Comparison)
  yoy_comparison : Option (Option Comparison)

/-- The effect of one `build_monthly_seller_profile(month)` call on the
`monthly_profiles` cache: the profile is stored under its month iff the
build returned rows (default `lookback_months = 3`). -/
def storeBuild (rd : RawData) (store : List (Month × List ProfileRow))
    (m : Month) : List (Month × List ProfileRow) :=
  match buildMonthlyProfile rd m 3 with
  | some rows => store ++ [(m, rows)]
  | none => store

/-- One iteration of the `for month in months_to_build` loop of
`analyze_period_comparison`: build and store the month iff it is available
and not yet cached. -/
def buildStep (rd : RawData) (avail : List Month)
    (store : List (Month × List ProfileRow)) (m : Month) :
    List (Month × List ProfileRow) :=
  if m ∈ avail ∧ (store.lookup m).isNone then storeBuild rd store m else store

/-- The method `MonthlySellerAnalyzer.analyze_period_comparison`.  `mom_month` is
`target - 1` and `yoy_month` is `target - 12` (pandas Period arithmetic);
each comparison field is filled iff its companion month is in
`available_months()` and in the cache.  The outer `Option` models the
`except` clause returning `{}`: `none` would arise only if a profile
lookup inside `_compare_two_months` raised a `KeyError`. -/
def analyzePeriodComparison (rd : RawData)
    (store : List (Month × List ProfileRow)) (target : Month) :
    Option PeriodComparisonResult :=
  let momMonth := target - 1
  let yoyMonth := target - 12
  let avail := availableMonths rd.orders
  let store1 := [target, momMonth, yoyMonth].foldl (buildStep rd avail) store
  let momC : Option (Option (Option Comparison)) :=
    if momMonth ∈ avail ∧ (store1.lookup momMonth).isSome then
      match store1.lookup target, store1.lookup momMonth with
      | some t1, some t2 => some (some (compareTwoMonths t1 t2 target momMonth))
      | _, _ => none
    else some none
  let yoyC : Option (Option (Option Comparison)) :=
    if yoyMonth ∈ avail ∧ (store1.lookup yoyMonth).isSome then
      match store1.lookup target, store1.lookup yoyMonth with
      | some t1, some t2 => some (some (compareTwoMonths t1 t2 target yoyMonth))
      | _, _ => none
    else some none
  match momC, yoyC with
  | some mc, some yc =>
    some { target_month := target, mom_comparison := mc, yoy_comparison := yc }
  | _, _ => none

/-- Mean of a list of rationals (`np.mean`). -/
def listMean (xs : List ℚ) : ℚ :=
  xs.sum / (xs.length : ℚ)

/-- Population variance, the square of `np.std` (default `ddof=0`). -/
def popVariance (xs : List ℚ) : ℚ :=
  ((xs.map fun x => (x - listMean xs) ^ 2).sum) / (xs.length : ℚ)

/-- The square of the `volatility` of `analyze_seller_trajectory`:
`np.std(numeric_tiers) if len(numeric_tiers) > 1 else 0`.  The standard
deviation itself is irrational in general; it is recovered as
`Real.sqrt` of this value, and every threshold comparison of the source
(`volatility > 0.5`) is equivalent to `volatilitySq > 0.25`. -/
def volatilitySq (xs : List ℚ) : ℚ :=
  if 1 < xs.length then popVariance xs else 0

/-- The ordinary-least-squares slope of the values `ys` against their
positions `0, 1, ..., n-1`: what `np.polyfit(range(n), ys, 1)[0]`
computes. -/
def olsSlope (ys : List ℚ) : ℚ :=
  let n : ℚ := ys.length
  let idx : List ℚ := (List.range ys.length).map fun i : ℕ => (i : ℚ)
  let sx := idx.sum
  let sy := ys.sum
  let sxy := ((idx.zip ys).map fun p => p.1 * p.2).sum
  let sxx := (idx.map fun x => x ^ 2).sum
  (n * sxy - sx * sy) / (n * sxx - sx ^ 2)

/-- The `trend` of `analyze_seller_trajectory`:
`np.polyfit(range(len(numeric_tiers)), numeric_tiers, 1)[0] if
len(numeric_tiers) > 1 else 0`. -/
def trend (ys : List ℚ) : ℚ :=
  if 1 < ys.length then olsSlope ys else 0

/-- The four trajectory categories of `analyze_seller_trajectory`
(source strings: 持续上升 rise, 持续下降 decline, 频繁波动 fluctuation,
相对稳定 stable). -/
inductive TrajectoryType
  | rise
  | decline
  | fluctuation
  | stable
deriving DecidableEq, Repr

/-- The `trajectory_type` branch of `analyze_seller_trajectory`:
`trend > 0.1` rise, `trend < -0.1` decline, `volatility > 0.5`
fluctuation (stated on the square: `std > 1/2 ↔ variance > 1/4`), else
stable. -/
def trajectoryType (xs : List ℚ) : TrajectoryType :=
  if 1/10 < trend xs then .rise
  else if trend xs < -(1/10) then .decline
  else if 1/4 < volatilitySq xs then .fluctuation
  else .stable

/-- The list `numeric_tiers = [tier_order.get(tier, 0) for tier in row.dropna()]`:
the ordinal sequence of a seller's tier path. -/
def ordSeq (ts : List Tier) : List ℚ :=
  ts.map fun t => (t.ord : ℚ)

/-! ### Concrete tables used by witnesses and counterexamples -/

/-- A one-seller target-month profile table (seller 1 at Silver). -/
def dfSilver1 : List ProfileRow :=
  [⟨1, 3000, 12, 4, 1, .Silver⟩]

/-- A one-seller baseline-month profile table (seller 1 at Basic). -/
def dfBasic1 : List ProfileRow :=
  [⟨1, 100, 1, 4, 1, .Basic⟩]

/-- A two-seller target-month table: seller 1 at Bronze, seller 2 at
Silver (so the upgrade magnitudes come out in ascending join order). -/
def dfUp12 : List ProfileRow :=
  [⟨1, 600, 4, 3, 1, .Bronze⟩, ⟨2, 3000, 12, 4, 1, .Silver⟩]

/-- A two-seller baseline-month table: both sellers at Basic. -/
def dfBase12 : List ProfileRow :=
  [⟨1, 100, 1, 3, 1, .Basic⟩, ⟨2, 150, 2, 4, 1, .Basic⟩]

/-- Raw data for the period-comparison witness: orders in consecutive
months 23 and 24, one seller, one item each. -/
def rdW : RawData :=
  { sellers := [7]
    orders := [⟨1, 23⟩, ⟨2, 24⟩]
    order_items := [⟨1, 7, 50⟩, ⟨2, 7, 80⟩]
    reviews := [⟨1, 5⟩, ⟨2, 4⟩] }

/-- Raw data for the profile witness: one order in month 10 by seller 5;
seller 6 has no orders at all. -/
def rdP : RawData :=
  { sellers := [5, 6]
    orders := [⟨1, 10⟩]
    order_items := [⟨1, 5, 100⟩]
    reviews := [⟨1, 5⟩] }

/-- A month-indexed profile store for the flow-matrix witness. -/
def profilesW : Month → List ProfileRow := fun m =>
  if m = 0 then dfBase12 else dfUp12

/-! ### Helper lemmas for the classifier -/

theorem meets_mono {c : TierCriteria} {g g' o o' r r' : ℚ}
    (h : meets c g o r) (hg : g ≤ g') (ho : o ≤ o') (hr : r ≤ r') :
    meets c g' o' r' :=
  ⟨h.1.trans hg, h.2.1.trans ho, h.2.2.trans hr⟩

theorem classifyLoop_mem (g o r : ℚ) (L : List (Tier × TierCriteria)) :
    classifyLoop g o r L = .Basic ∨ classifyLoop g o r L ∈ L.map Prod.fst := by
  induction L with
  | nil => exact Or.inl rfl
  | cons p rest ih =>
    obtain ⟨t, c⟩ := p
    by_cases h : meets c g o r
    · right
      simp [classifyLoop, h]
    · rcases ih with h1 | h1
      · left
        simpa [classifyLoop, h] using h1
      · right
        simp only [classifyLoop, if_neg h]
        exact List.mem_cons_of_mem _ h1

theorem classifyLoop_mono (L : List (Tier × TierCriteria))
    (hL : L.Pairwise (fun a b => b.1.ord ≤ a.1.ord))
    {g g' o o' r r' : ℚ} (hg : g ≤ g') (ho : o ≤ o') (hr : r ≤ r') :
    (classifyLoop g o r L).ord ≤ (classifyLoop g' o' r' L).ord := by
  induction L with
  | nil => exact le_refl _
  | cons p rest ih =>
    obtain ⟨t, c⟩ := p
    rw [List.pairwise_cons] at hL
    by_cases hx : meets c g o r
    · have hy : meets c g' o' r' := meets_mono hx hg ho hr
      simp [classifyLoop, hx, hy]
    · by_cases hy : meets c g' o' r'
      · simp only [classifyLoop, if_neg hx, if_pos hy]
        rcases classifyLoop_mem g o r rest with h1 | h1
        · rw [h1]
          exact Nat.zero_le _
        · obtain ⟨q, hq, hq2⟩ := List.mem_map.mp h1
          rw [← hq2]
          exact hL.1 q hq
      · simp only [classifyLoop, if_neg hx, if_neg hy]
        exact ih hL.2

theorem tierDefinitions_ord_sorted :
    tierDefinitions.Pairwise (fun a b => b.1.ord ≤ a.1.ord) := by
  decide

/-! ### Claims C1 and C2 -/

/-- C1: the tier classifier returns the highest-ranked tier of
{Platinum, Gold, Silver, Bronze, Basic} whose three minimum thresholds
(canonical table: Platinum 50000/200/4.0, Gold 10000/50/3.5, Silver
2000/10/3.0, Bronze 500/3/2.5, Basic 0/0/0) are all met simultaneously by
the metrics, defaulting to Basic when no tier's thresholds are met; in
particular, for gmv=100, orders=1, rating=5.0 it returns Basic.  Formally:
`classifySeller` coincides with the highest-first iteration over the
canonical table (`specClassify`), its result is the Basic default or meets
its own canonical thresholds, every tier whose canonical thresholds are met
ranks no higher than the result, and the concrete input evaluates to
Basic. -/
theorem classifier_matches_canonical_table :
    (∀ gmv orders rating : ℚ,
        classifySeller gmv orders rating = specClassify gmv orders rating ∧
        (classifySeller gmv orders rating = Tier.Basic ∨
          meets (canonicalCriteria (classifySeller gmv orders rating)) gmv orders rating) ∧
        (∀ t : Tier, meets (canonicalCriteria t) gmv orders rating →
          t.ord ≤ (classifySeller gmv orders rating).ord)) ∧
    classifySeller 100 1 5 = Tier.Basic := by
  refine ⟨fun gmv orders rating => ⟨?_, ?_, ?_⟩, by decide⟩
  · simp only [classifySeller, specClassify, tierDefinitions, canonicalCriteria, classifyLoop]
    split_ifs <;> rfl
  · simp only [classifySeller, tierDefinitions, classifyLoop]
    split_ifs with h1 h2 h3 h4 h5 <;>
      simp_all [canonicalCriteria, meets]
  · intro t ht
    cases t <;>
      simp only [classifySeller, tierDefinitions, classifyLoop] <;>
      split_ifs <;>
      first
        | decide
        | simp_all [canonicalCriteria, meets]

/-- Witness for C1 at a concrete input: a seller with GMV 60000, 250
orders and rating 4.5 meets the Platinum thresholds and the classifier
agrees with the canonical table there. -/
theorem classifier_matches_canonical_table_witness :
    classifySeller 60000 250 (9/2) = specClassify 60000 250 (9/2) ∧
    meets (canonicalCriteria Tier.Platinum) 60000 250 (9/2) ∧
    Tier.Platinum.ord ≤ (classifySeller 60000 250 (9/2)).ord :=
  ⟨(classifier_matches_canonical_table.1 60000 250 (9/2)).1,
    by norm_num [meets, canonicalCriteria],
    (classifier_matches_canonical_table.1 60000 250 (9/2)).2.2 Tier.Platinum
      (by norm_num [meets, canonicalCriteria])⟩

/-- C2: the tier classifier is monotone in each metric separately — with
the other two metrics fixed, increasing GMV (resp. order count, resp.
rating) never decreases the ordinal of the assigned tier. -/
theorem classifier_monotone :
    (∀ orders rating g₁ g₂ : ℚ, g₁ ≤ g₂ →
        (classifySeller g₁ orders rating).ord ≤ (classifySeller g₂ orders rating).ord) ∧
    (∀ gmv rating o₁ o₂ : ℚ, o₁ ≤ o₂ →
        (classifySeller gmv o₁ rating).ord ≤ (classifySeller gmv o₂ rating).ord) ∧
    (∀ gmv orders r₁ r₂ : ℚ, r₁ ≤ r₂ →
        (classifySeller gmv orders r₁).ord ≤ (classifySeller gmv orders r₂).ord) := by
  refine ⟨fun o r g₁ g₂ hg => ?_, fun g r o₁ o₂ ho => ?_, fun g o r₁ r₂ hr => ?_⟩
  · exact classifyLoop_mono tierDefinitions tierDefinitions_ord_sorted hg le_rfl le_rfl
  · exact classifyLoop_mono tierDefinitions tierDefinitions_ord_sorted le_rfl ho le_rfl
  · exact classifyLoop_mono tierDefinitions tierDefinitions_ord_sorted le_rfl le_rfl hr

/-- Witness for C2 at concrete inputs: raising GMV from 100 to 2500 with
orders 10 and rating 3 fixed does not lower the tier. -/
theorem classifier_monotone_witness :
    (100 : ℚ) ≤ 2500 ∧
    (classifySeller 100 10 3).ord ≤ (classifySeller 2500 10 3).ord :=
  ⟨by norm_num, classifier_monotone.1 10 3 100 2500 (by norm_num)⟩

/-! ### Claim C3: the lookback window -/

/-- C3: an order enters the windowed aggregation of
`build_monthly_seller_profile` iff its calendar month lies in
`[target - lookback, target]`, both endpoints included, and that window
spans exactly `lookback + 1` calendar months. -/
theorem window_membership :
    ∀ (orders : List Order) (target : Month) (L : ℕ) (o : Order),
      (o ∈ ordersInWindow orders target L ↔
        o ∈ orders ∧ target - L ≤ o.year_month ∧ o.year_month ≤ target) ∧
      (Finset.Icc (windowStart target L) target).card = L + 1 := by
  intro orders target L o
  constructor
  · simp [ordersInWindow, List.mem_filter, windowStart]
  · rw [windowStart, Int.card_Icc]
    omega

/-- Witness for C3 at a concrete order list, target month 12 and lookback
3 (month 10 lies inside the window, which spans four months). -/
theorem window_membership_witness :
    ((⟨1, 10⟩ : Order) ∈ ordersInWindow [⟨1, 10⟩] 12 3 ↔
      (⟨1, 10⟩ : Order) ∈ ([⟨1, 10⟩] : List Order) ∧
        (12 : Month) - (3 : ℕ) ≤ (10 : Month) ∧ (10 : Month) ≤ 12) ∧
    (Finset.Icc (windowStart 12 3) 12).card = 3 + 1 :=
  window_membership [⟨1, 10⟩] 12 3 ⟨1, 10⟩

/-! ### Claim C9: the profile covers every seller -/

theorem classifySeller_zero : classifySeller 0 0 0 = Tier.Basic := by
  decide

/-- C9: whenever the window contains at least one order, the built profile
has exactly one row per seller of the raw sellers table, in order; a
seller with no order items in the window gets zero-filled metrics,
`is_active = 0`, and is still assigned a tier (Basic). -/
theorem profile_covers_all_sellers :
    ∀ (rd : RawData) (target : Month) (L : ℕ),
      ordersInWindow rd.orders target L ≠ [] →
      ∃ rows, buildMonthlyProfile rd target L = some rows ∧
        rows.map (·.seller_id) = rd.sellers ∧
        rows.length = rd.sellers.length ∧
        ∀ row ∈ rows, sellerItemsInWindow rd target L row.seller_id = [] →
          row.total_gmv = 0 ∧ row.unique_orders = 0 ∧
          row.avg_review_score = 0 ∧ row.is_active = 0 ∧
          row.business_tier = Tier.Basic := by
  intro rd target L hne
  refine ⟨rd.sellers.map (mkProfileRow rd target L), ?_, ?_, ?_, ?_⟩
  · rw [buildMonthlyProfile, if_neg]
    simp [List.isEmpty_iff, hne]
  · rw [List.map_map]
    exact List.map_id'' (fun x => rfl) rd.sellers
  · exact List.length_map _ _
  · intro row hrow hempty
    obtain ⟨sid, _, rfl⟩ := List.mem_map.mp hrow
    have hsid : (mkProfileRow rd target L sid).seller_id = sid := rfl
    rw [hsid] at hempty
    have hgmv : sellerGmv rd target L sid = 0 := by
      rw [sellerGmv, hempty]; rfl
    have huo : sellerUniqueOrders rd target L sid = 0 := by
      rw [sellerUniqueOrders, hempty]; rfl
    have hscores : sellerReviewScores rd target L sid = [] := by
      rw [sellerReviewScores, hempty]; rfl
    have havg : sellerAvgReview rd target L sid = 0 := by
      rw [sellerAvgReview, hscores]; rfl
    refine ⟨hgmv, huo, havg, ?_, ?_⟩
    · simp [mkProfileRow, hgmv]
    · simp only [mkProfileRow, hgmv, huo, havg]
      exact classifySeller_zero

/-- Witness for C9: raw data with one order in month 10 by seller 5 and an
orderless seller 6; the window `[10, 10]` is nonempty, so the conclusion
of the theorem holds for it. -/
theorem profile_covers_all_sellers_witness :
    ordersInWindow rdP.orders 10 0 ≠ [] ∧
    (∃ rows, buildMonthlyProfile rdP 10 0 = some rows ∧
      rows.map (·.seller_id) = rdP.sellers ∧
      rows.length = rdP.sellers.length ∧
      ∀ row ∈ rows, sellerItemsInWindow rdP 10 0 row.seller_id = [] →
        row.total_gmv = 0 ∧ row.unique_orders = 0 ∧
        row.avg_review_score = 0 ∧ row.is_active = 0 ∧
        row.business_tier = Tier.Basic) :=
  ⟨by decide, profile_covers_all_sellers rdP 10 0 (by decide)⟩

/-! ### Helper lemmas for `_compare_two_months` -/

/-- Explicit form of a successful `_compare_two_months` call. -/
theorem compareTwoMonths_eq (df1 df2 : List ProfileRow) (m1 m2 : Month)
    (h : innerJoin df1 df2 ≠ []) :
    compareTwoMonths df1 df2 m1 m2 = some
      { month1 := m1
        month2 := m2
        total_sellers := (innerJoin df1 df2).length
        upgraded_count := ((innerJoin df1 df2).filter fun m => 0 < m.tier_change).length
        downgraded_count := ((innerJoin df1 df2).filter fun m => m.tier_change < 0).length
        stable_count := ((innerJoin df1 df2).filter fun m => m.tier_change = 0).length
        upgrade_rate := (((innerJoin df1 df2).filter fun m => 0 < m.tier_change).length : ℚ) /
          ((innerJoin df1 df2).length : ℚ) * 100
        downgrade_rate := (((innerJoin df1 df2).filter fun m => m.tier_change < 0).length : ℚ) /
          ((innerJoin df1 df2).length : ℚ) * 100
        stability_rate := (((innerJoin df1 df2).filter fun m => m.tier_change = 0).length : ℚ) /
          ((innerJoin df1 df2).length : ℚ) * 100
        flow_matrix := (innerJoin df1 df2).map fun m => (m.tier_m2, m.tier_m1)
        upgraded_sellers := (innerJoin df1 df2).filter fun m => 0 < m.tier_change
        downgraded_sellers := (innerJoin df1 df2).filter fun m => m.tier_change < 0
        stable_sellers := (innerJoin df1 df2).filter fun m => m.tier_change = 0
        merged_data := innerJoin df1 df2 } := by
  rw [compareTwoMonths]
  simp [List.isEmpty_iff, h]

/-- The sign of `tier_change` partitions the merged rows. -/
theorem tier_change_trichotomy (l : List MergedRow) :
    (l.filter fun m => 0 < m.tier_change).length +
      (l.filter fun m => m.tier_change < 0).length +
      (l.filter fun m => m.tier_change = 0).length = l.length := by
  induction l with
  | nil => rfl
  | cons a t ih =>
    by_cases h1 : 0 < a.tier_change <;> by_cases h2 : a.tier_change < 0 <;>
      by_cases h3 : a.tier_change = 0 <;>
      simp [List.filter_cons, h1, h2, h3] <;> omega

/-! ### Claim C10: upgraded/downgraded/stable partition the common sellers -/

/-- C10: in every two-month Comparison the upgraded, downgraded and stable
counts partition the common sellers, and the three percentage rates sum to
100. -/
theorem comparison_partition :
    ∀ (df1 df2 : List ProfileRow) (m1 m2 : Month),
      innerJoin df1 df2 ≠ [] →
      ∃ c, compareTwoMonths df1 df2 m1 m2 = some c ∧
        c.upgraded_count + c.downgraded_count + c.stable_count = c.total_sellers ∧
        c.upgrade_rate + c.downgrade_rate + c.stability_rate = 100 := by
  intro df1 df2 m1 m2 h
  refine ⟨_, compareTwoMonths_eq df1 df2 m1 m2 h, ?_, ?_⟩
  · exact tier_change_trichotomy (innerJoin df1 df2)
  · have htri := tier_change_trichotomy (innerJoin df1 df2)
    have hn : 0 < (innerJoin df1 df2).length := List.length_pos.mpr h
    have hnq : ((innerJoin df1 df2).length : ℚ) ≠ 0 := by
      exact_mod_cast Nat.pos_iff_ne_zero.mp hn
    have hsum : ((((innerJoin df1 df2).filter fun m => 0 < m.tier_change).length : ℚ) +
        (((innerJoin df1 df2).filter fun m => m.tier_change < 0).length : ℚ) +
        (((innerJoin df1 df2).filter fun m => m.tier_change = 0).length : ℚ)) =
        ((innerJoin df1 df2).length : ℚ) := by
      exact_mod_cast htri
    field_simp
    linarith

/-- Witness for C10: two one-row profiles sharing seller 1. -/
theorem comparison_partition_witness :
    innerJoin dfSilver1 dfBasic1 ≠ [] ∧
    (∃ c, compareTwoMonths dfSilver1 dfBasic1 5 4 = some c ∧
      c.upgraded_count + c.downgraded_count + c.stable_count = c.total_sellers ∧
      c.upgrade_rate + c.downgrade_rate + c.stability_rate = 100) :=
  ⟨by decide, comparison_partition dfSilver1 dfBasic1 5 4 (by decide)⟩

/-! ### Claim C7: the rates are percentages, not fractions -/

/-- Counterexample for C7 as stated: with one common seller who upgraded,
the code's `upgrade_rate` is `100`, not the quotient
`upgraded_count / total_sellers = 1`, and it lies outside `[0, 1]`. -/
theorem upgrade_rate_not_unit_fraction :
    ∃ c, compareTwoMonths dfSilver1 dfBasic1 1 0 = some c ∧
      c.upgrade_rate ≠ (c.upgraded_count : ℚ) / (c.total_sellers : ℚ) ∧
      ¬ c.upgrade_rate ≤ 1 := by
  have hJ : innerJoin dfSilver1 dfBasic1 = [⟨1, Tier.Silver, Tier.Basic, 2⟩] := by decide
  refine ⟨_, compareTwoMonths_eq dfSilver1 dfBasic1 1 0 (by decide), ?_, ?_⟩ <;>
    · simp only [hJ]
      norm_num [List.filter]

/-- C7 as amended: each rate equals `count / total_sellers * 100`, a value
in `[0, 100]`. -/
theorem rates_are_percentages :
    ∀ (df1 df2 : List ProfileRow) (m1 m2 : Month),
      innerJoin df1 df2 ≠ [] →
      ∃ c, compareTwoMonths df1 df2 m1 m2 = some c ∧
        c.upgrade_rate = (c.upgraded_count : ℚ) / (c.total_sellers : ℚ) * 100 ∧
        c.downgrade_rate = (c.downgraded_count : ℚ) / (c.total_sellers : ℚ) * 100 ∧
        0 ≤ c.upgrade_rate ∧ c.upgrade_rate ≤ 100 ∧
        0 ≤ c.downgrade_rate ∧ c.downgrade_rate ≤ 100 := by
  intro df1 df2 m1 m2 h
  have hn : 0 < (innerJoin df1 df2).length := List.length_pos.mpr h
  have hnq : (0 : ℚ) < ((innerJoin df1 df2).length : ℚ) := by exact_mod_cast hn
  have hup : (((innerJoin df1 df2).filter fun m => 0 < m.tier_change).length : ℚ) ≤
      ((innerJoin df1 df2).length : ℚ) := by
    exact_mod_cast List.length_filter_le _ _
  have hdown : (((innerJoin df1 df2).filter fun m => m.tier_change < 0).length : ℚ) ≤
      ((innerJoin df1 df2).length : ℚ) := by
    exact_mod_cast List.length_filter_le _ _
  have bound : ∀ k : ℚ, 0 ≤ k → k ≤ ((innerJoin df1 df2).length : ℚ) →
      k / ((innerJoin df1 df2).length : ℚ) * 100 ≤ 100 := by
    intro k _ hk
    rw [div_mul_eq_mul_div, div_le_iff₀ hnq]
    linarith
  have hup0 : (0 : ℚ) ≤ (((innerJoin df1 df2).filter fun m => 0 < m.tier_change).length : ℚ) /
      ((innerJoin df1 df2).length : ℚ) * 100 := by positivity
  have hdown0 : (0 : ℚ) ≤ (((innerJoin df1 df2).filter fun m => m.tier_change < 0).length : ℚ) /
      ((innerJoin df1 df2).length : ℚ) * 100 := by positivity
  exact ⟨_, compareTwoMonths_eq df1 df2 m1 m2 h, rfl, rfl, hup0,
    bound _ (by positivity) hup, hdown0, bound _ (by positivity) hdown⟩

/-- Witness for the amended C7 on a two-seller comparison. -/
theorem rates_are_percentages_witness :
    innerJoin dfUp12 dfBase12 ≠ [] ∧
    (∃ c, compareTwoMonths dfUp12 dfBase12 1 0 = some c ∧
      c.upgrade_rate = (c.upgraded_count : ℚ) / (c.total_sellers : ℚ) * 100 ∧
      c.downgrade_rate = (c.downgraded_count : ℚ) / (c.total_sellers : ℚ) * 100 ∧
      0 ≤ c.upgrade_rate ∧ c.upgrade_rate ≤ 100 ∧
      0 ≤ c.downgrade_rate ∧ c.downgrade_rate ≤ 100) :=
  ⟨by decide, rates_are_percentages dfUp12 dfBase12 1 0 (by decide)⟩

/-! ### Claim C8: the seller lists are not sorted by magnitude -/

/-- Counterexample for C8 as stated: with upgrades of magnitude 1 and 2
arriving in that join order, the returned `upgraded_sellers` list is
`[+1, +2]` — not in descending order of `|tier_change|`. -/
theorem upgraded_list_not_sorted :
    ∃ c, compareTwoMonths dfUp12 dfBase12 1 0 = some c ∧
      c.upgraded_sellers.map (·.tier_change) = [1, 2] ∧
      ¬ List.Pairwise
          (fun x y : MergedRow => y.tier_change.natAbs ≤ x.tier_change.natAbs)
          c.upgraded_sellers := by
  refine ⟨_, compareTwoMonths_eq dfUp12 dfBase12 1 0 (by decide), by decide, by decide⟩

/-- C8 as amended: the upgraded and downgraded lists are exactly the
positive- and negative-change rows of the merged data, kept in the inner
join's row order (the month-1 profile order); no sort is applied. -/
theorem seller_lists_in_join_order :
    ∀ (df1 df2 : List ProfileRow) (m1 m2 : Month),
      innerJoin df1 df2 ≠ [] →
      ∃ c, compareTwoMonths df1 df2 m1 m2 = some c ∧
        c.merged_data = innerJoin df1 df2 ∧
        c.upgraded_sellers = c.merged_data.filter (fun m => 0 < m.tier_change) ∧
        c.downgraded_sellers = c.merged_data.filter (fun m => m.tier_change < 0) := by
  intro df1 df2 m1 m2 h
  exact ⟨_, compareTwoMonths_eq df1 df2 m1 m2 h, rfl, rfl, rfl⟩

/-- Witness for the amended C8. -/
theorem seller_lists_in_join_order_witness :
    innerJoin dfUp12 dfBase12 ≠ [] ∧
    (∃ c, compareTwoMonths dfUp12 dfBase12 1 0 = some c ∧
      c.merged_data = innerJoin dfUp12 dfBase12 ∧
      c.upgraded_sellers = c.merged_data.filter (fun m => 0 < m.tier_change) ∧
      c.downgraded_sellers = c.merged_data.filter (fun m => m.tier_change < 0)) :=
  ⟨by decide, seller_lists_in_join_order dfUp12 dfBase12 1 0 (by decide)⟩

/-! ### Helper lemmas for the flow matrix -/

/-- Each crosstab row margin is the sum of its cells. -/
theorem rowMargin_eq_sum (l : List (Tier × Tier)) (a : Tier) :
    rowMargin l a = ∑ b : Tier, crosstabCell l a b := by
  simp only [rowMargin, crosstabCell, ← List.countP_eq_length_filter]
  induction l with
  | nil => simp
  | cons p t ih =>
    simp only [List.countP_cons]
    rw [Finset.sum_add_distrib, ← ih]
    congr 1
    by_cases h : p.1 = a
    · simp [h]
    · simp [h]

/-- Each crosstab column margin is the sum of its cells. -/
theorem colMargin_eq_sum (l : List (Tier × Tier)) (b : Tier) :
    colMargin l b = ∑ a : Tier, crosstabCell l a b := by
  simp only [colMargin, crosstabCell, ← List.countP_eq_length_filter]
  induction l with
  | nil => simp
  | cons p t ih =>
    simp only [List.countP_cons]
    rw [Finset.sum_add_distrib, ← ih]
    congr 1
    by_cases h : p.2 = b
    · simp [h]
    · simp [h]

/-- With duplicate-free keys in `df2`, filtering `df2` by one key yields
one row when the key is present, none otherwise. -/
theorem filter_sid_length_of_nodup (df2 : List ProfileRow) (k : ℕ)
    (hd : (df2.map (·.seller_id)).Nodup) :
    (df2.filter fun r => r.seller_id = k).length =
      if k ∈ df2.map (·.seller_id) then 1 else 0 := by
  induction df2 with
  | nil => simp
  | cons r t ih =>
    rw [List.map_cons, List.nodup_cons] at hd
    by_cases h : r.seller_id = k
    · have ht : (t.filter fun r2 => r2.seller_id = k).length = 0 := by
        rw [ih hd.2, if_neg]
        rw [← h]
        exact hd.1
      simp [List.filter_cons, h, ht, List.mem_cons]
    · have hne : k ≠ r.seller_id := fun hk => h hk.symm
      simp [List.filter_cons, h, ih hd.2, List.mem_cons, hne]

/-- The length of the inner join counts the `df1` rows whose seller also
appears in `df2` (given duplicate-free keys in `df2`). -/
theorem innerJoin_length_eq_common (df1 df2 : List ProfileRow)
    (hd2 : (df2.map (·.seller_id)).Nodup) :
    (innerJoin df1 df2).length =
      ((df1.map (·.seller_id)).filter fun s => s ∈ df2.map (·.seller_id)).length := by
  induction df1 with
  | nil => rfl
  | cons r1 t ih =>
    simp only [innerJoin, List.flatMap_cons, List.length_append, List.length_map,
      List.map_cons, List.filter_cons] at ih ⊢
    rw [filter_sid_length_of_nodup df2 r1.seller_id hd2]
    by_cases h : r1.seller_id ∈ df2.map (·.seller_id)
    · simp only [h, if_pos, decide_eq_true_eq, if_true, List.length_cons]
      omega
    · simp only [h, if_neg, decide_eq_true_eq, if_false]
      simpa using ih

/-- With duplicate-free keys on both sides, the join length is the number
of sellers present in both months. -/
theorem innerJoin_length_card (df1 df2 : List ProfileRow)
    (hd1 : (df1.map (·.seller_id)).Nodup) (hd2 : (df2.map (·.seller_id)).Nodup) :
    (innerJoin df1 df2).length =
      ((df1.map (·.seller_id)).toFinset ∩ (df2.map (·.seller_id)).toFinset).card := by
  rw [innerJoin_length_eq_common df1 df2 hd2]
  have hnd : ((df1.map (·.seller_id)).filter fun s => s ∈ df2.map (·.seller_id)).Nodup :=
    hd1.filter _
  rw [← List.toFinset_card_of_nodup hnd]
  congr 1
  ext s
  simp [List.mem_toFinset, List.mem_filter, Finset.mem_inter]

/-! ### Claim C5: flow-matrix margin consistency -/

/-- C5: in every flow matrix produced — by `_compare_two_months` or by
`_create_tier_flow_matrix` over the last two months of the list — each row
margin is the sum of that row's cells, each column margin is the sum of
that column's cells, and the grand total equals the number of sellers
present in both compared months (the inner join on seller_id; counted as a
set when seller ids are duplicate-free). -/
theorem flow_matrix_margins :
    (∀ (df1 df2 : List ProfileRow) (m1 m2 : Month),
      innerJoin df1 df2 ≠ [] →
      ∃ c, compareTwoMonths df1 df2 m1 m2 = some c ∧
        (∀ a, rowMargin c.flow_matrix a = ∑ b : Tier, crosstabCell c.flow_matrix a b) ∧
        (∀ b, colMargin c.flow_matrix b = ∑ a : Tier, crosstabCell c.flow_matrix a b) ∧
        grandTotal c.flow_matrix = (innerJoin df1 df2).length ∧
        ((df1.map (·.seller_id)).Nodup → (df2.map (·.seller_id)).Nodup →
          grandTotal c.flow_matrix =
            ((df1.map (·.seller_id)).toFinset ∩ (df2.map (·.seller_id)).toFinset).card)) ∧
    (∀ (profiles : Month → List ProfileRow) (months : List Month) (l : List (Tier × Tier)),
      createTierFlowMatrix profiles months = some l →
      (∀ a, rowMargin l a = ∑ b : Tier, crosstabCell l a b) ∧
      (∀ b, colMargin l b = ∑ a : Tier, crosstabCell l a b) ∧
      ∃ m1 m2, months.reverse.head? = some m2 ∧ months.reverse.tail.head? = some m1 ∧
        l = joinTierPairs (profiles m1) (profiles m2) ∧
        (((profiles m1).map (·.seller_id)).Nodup →
          ((profiles m2).map (·.seller_id)).Nodup →
          grandTotal l =
            (((profiles m1).map (·.seller_id)).toFinset ∩
              ((profiles m2).map (·.seller_id)).toFinset).card)) := by
  constructor
  · intro df1 df2 m1 m2 h
    refine ⟨_, compareTwoMonths_eq df1 df2 m1 m2 h, ?_, ?_, ?_, ?_⟩
    · intro a
      exact rowMargin_eq_sum _ a
    · intro b
      exact colMargin_eq_sum _ b
    · exact List.length_map _ _
    · intro hd1 hd2
      have hlen : grandTotal ((innerJoin df1 df2).map fun m => (m.tier_m2, m.tier_m1)) =
          (innerJoin df1 df2).length := List.length_map _ _
      exact hlen.trans (innerJoin_length_card df1 df2 hd1 hd2)
  · intro profiles months l hl
    rw [createTierFlowMatrix] at hl
    rcases hrev : months.reverse with _ | ⟨m2, rest1⟩
    · rw [hrev] at hl
      simp at hl
    · rcases rest1 with _ | ⟨m1, rest⟩
      · rw [hrev] at hl
        simp at hl
      · rw [hrev] at hl
        simp only [Option.some.injEq] at hl
        subst hl
        refine ⟨fun a => rowMargin_eq_sum _ a, fun b => colMargin_eq_sum _ b,
          m1, m2, rfl, rfl, rfl, ?_⟩
        intro hd1 hd2
        have hlen : grandTotal (joinTierPairs (profiles m1) (profiles m2)) =
            (innerJoin (profiles m1) (profiles m2)).length := List.length_map _ _
        exact hlen.trans (innerJoin_length_card _ _ hd1 hd2)

/-- Witness for C5: both constructions evaluated on concrete tables with
duplicate-free seller ids. -/
theorem flow_matrix_margins_witness :
    (innerJoin dfUp12 dfBase12 ≠ [] ∧
      (dfUp12.map (·.seller_id)).Nodup ∧ (dfBase12.map (·.seller_id)).Nodup ∧
      (∃ c, compareTwoMonths dfUp12 dfBase12 3 2 = some c ∧
        (∀ a, rowMargin c.flow_matrix a = ∑ b : Tier, crosstabCell c.flow_matrix a b) ∧
        (∀ b, colMargin c.flow_matrix b = ∑ a : Tier, crosstabCell c.flow_matrix a b) ∧
        grandTotal c.flow_matrix = (innerJoin dfUp12 dfBase12).length ∧
        ((dfUp12.map (·.seller_id)).Nodup → (dfBase12.map (·.seller_id)).Nodup →
          grandTotal c.flow_matrix =
            ((dfUp12.map (·.seller_id)).toFinset ∩
              (dfBase12.map (·.seller_id)).toFinset).card))) ∧
    ((∀ a, rowMargin (joinTierPairs (profilesW 0) (profilesW 1)) a =
        ∑ b : Tier, crosstabCell (joinTierPairs (profilesW 0) (profilesW 1)) a b) ∧
      (∀ b, colMargin (joinTierPairs (profilesW 0) (profilesW 1)) b =
        ∑ a : Tier, crosstabCell (joinTierPairs (profilesW 0) (profilesW 1)) a b) ∧
      ∃ m1 m2, ([0, 1] : List Month).reverse.head? = some m2 ∧
        ([0, 1] : List Month).reverse.tail.head? = some m1 ∧
        joinTierPairs (profilesW 0) (profilesW 1) =
          joinTierPairs (profilesW m1) (profilesW m2) ∧
        (((profilesW m1).map (·.seller_id)).Nodup →
          ((profilesW m2).map (·.seller_id)).Nodup →
          grandTotal (joinTierPairs (profilesW 0) (profilesW 1)) =
            (((profilesW m1).map (·.seller_id)).toFinset ∩
              ((profilesW m2).map (·.seller_id)).toFinset).card)) :=
  ⟨⟨by decide, by decide, by decide,
      flow_matrix_margins.1 dfUp12 dfBase12 3 2 (by decide)⟩,
    flow_matrix_margins.2 profilesW [0, 1] _ rfl⟩

/-! ### Helper lemmas for `analyze_period_comparison` -/

theorem mem_insertSorted (x m : Month) (l : List Month) :
    x ∈ insertSorted m l ↔ x = m ∨ x ∈ l := by
  induction l with
  | nil => simp [insertSorted]
  | cons y t ih =>
    rw [insertSorted]
    by_cases h : m ≤ y
    · simp [h, List.mem_cons]
    · rw [if_neg h]
      simp only [List.mem_cons, ih]
      tauto

theorem mem_sortMonths (x : Month) (l : List Month) : x ∈ sortMonths l ↔ x ∈ l := by
  induction l with
  | nil => simp [sortMonths]
  | cons y t ih =>
    simp only [sortMonths, List.foldr_cons] at ih ⊢
    rw [mem_insertSorted, ih, List.mem_cons]

theorem mem_availableMonths (orders : List Order) (m : Month) :
    m ∈ availableMonths orders ↔ ∃ o ∈ orders, o.year_month = m := by
  rw [availableMonths, mem_sortMonths, List.mem_dedup, List.mem_map]

/-- A month with at least one order always yields a stored profile: its
default three-month lookback window contains that order. -/
theorem buildMonthlyProfile_of_available (rd : RawData) (m : Month)
    (h : m ∈ availableMonths rd.orders) :
    ∃ rows, buildMonthlyProfile rd m 3 = some rows := by
  rw [mem_availableMonths] at h
  obtain ⟨o, ho, hom⟩ := h
  have hmem : o ∈ ordersInWindow rd.orders m 3 := by
    rw [ordersInWindow, List.mem_filter]
    refine ⟨ho, ?_⟩
    rw [decide_eq_true_eq, windowStart, hom]
    exact ⟨sub_le_self m (Nat.cast_nonneg 3), le_refl m⟩
  have hne : ordersInWindow rd.orders m 3 ≠ [] := List.ne_nil_of_mem hmem
  rw [buildMonthlyProfile, if_neg]
  · exact ⟨_, rfl⟩
  · simp [List.isEmpty_iff, hne]

theorem lookup_append_left {s t : List (Month × List ProfileRow)} {x : Month}
    {v : List ProfileRow} (h : s.lookup x = some v) : (s ++ t).lookup x = some v := by
  induction s with
  | nil => cases h
  | cons e rest ih =>
    rw [List.cons_append]
    cases hx : (x == e.1) with
    | false =>
      simp only [List.lookup, hx] at h ⊢
      exact ih h
    | true =>
      simp only [List.lookup, hx] at h ⊢
      exact h

theorem lookup_append_right {s t : List (Month × List ProfileRow)} {x : Month}
    (h : s.lookup x = none) : (s ++ t).lookup x = t.lookup x := by
  induction s with
  | nil => rfl
  | cons e rest ih =>
    rw [List.cons_append]
    cases hx : (x == e.1) with
    | false =>
      simp only [List.lookup, hx] at h ⊢
      exact ih h
    | true =>
      simp only [List.lookup, hx] at h ⊢
      cases h

theorem buildStep_preserves (rd : RawData) (avail : List Month)
    (s : List (Month × List ProfileRow)) (m x : Month)
    (h : (s.lookup x).isSome) : ((buildStep rd avail s m).lookup x).isSome := by
  rw [buildStep]
  split_ifs with hc
  · rw [storeBuild]
    obtain ⟨v, hv⟩ := Option.isSome_iff_exists.mp h
    cases hb : buildMonthlyProfile rd m 3 with
    | none => exact h
    | some rows => rw [lookup_append_left hv]; rfl
  · exact h

theorem buildStep_establishes (rd : RawData)
    (s : List (Month × List ProfileRow)) (m : Month)
    (hm : m ∈ availableMonths rd.orders) :
    ((buildStep rd (availableMonths rd.orders) s m).lookup m).isSome := by
  rw [buildStep]
  by_cases hc : m ∈ availableMonths rd.orders ∧ (s.lookup m).isNone
  · rw [if_pos hc, storeBuild]
    obtain ⟨rows, hb⟩ := buildMonthlyProfile_of_available rd m hm
    rw [hb, lookup_append_right (Option.isNone_iff_eq_none.mp hc.2)]
    simp [List.lookup_cons]
  · rw [if_neg hc]
    cases hsm : s.lookup m with
    | some v => simp [hsm]
    | none => exact absurd ⟨hm, by simp [hsm]⟩ hc

/-- Month labels recorded in a successful comparison are the arguments. -/
theorem compareTwoMonths_months (df1 df2 : List ProfileRow) (m1 m2 : Month)
    (c : Comparison) (h : compareTwoMonths df1 df2 m1 m2 = some c) :
    c.month1 = m1 ∧ c.month2 = m2 := by
  rw [compareTwoMonths] at h
  split_ifs at h with hc
  have h2 := Option.some.inj h
  cases h2
  exact ⟨rfl, rfl⟩

/-! ### Claim C4: MoM/YoY period alignment -/

/-- C4: for a target month present in the data,
`analyze_period_comparison` raises no exception and compares the target
against exactly `target - 1` (MoM) and exactly `target - 12` (YoY); each
comparison field is present iff its companion month is in
`available_months()`, and the other field is unaffected by a missing
companion. -/
theorem period_alignment :
    ∀ (rd : RawData) (store : List (Month × List ProfileRow)) (target : Month),
      target ∈ availableMonths rd.orders →
      ∃ res, analyzePeriodComparison rd store target = some res ∧
        res.target_month = target ∧
        (res.mom_comparison.isSome ↔ (target - 1) ∈ availableMonths rd.orders) ∧
        (res.yoy_comparison.isSome ↔ (target - 12) ∈ availableMonths rd.orders) ∧
        (∀ oc c, res.mom_comparison = some oc → oc = some c →
          c.month1 = target ∧ c.month2 = target - 1) ∧
        (∀ oc c, res.yoy_comparison = some oc → oc = some c →
          c.month1 = target ∧ c.month2 = target - 12) := by
  intro rd store target htarget
  simp only [analyzePeriodComparison, List.foldl_cons, List.foldl_nil]
  set A := availableMonths rd.orders with hA
  set s1 := buildStep rd A store target with hs1
  set s2 := buildStep rd A s1 (target - 1) with hs2
  set s3 := buildStep rd A s2 (target - 12) with hs3
  have hT1 : (s1.lookup target).isSome := buildStep_establishes rd store target htarget
  have hT : (s3.lookup target).isSome :=
    buildStep_preserves rd A s2 (target - 12) target
      (buildStep_preserves rd A s1 (target - 1) target hT1)
  have hM : (target - 1) ∈ A → (s3.lookup (target - 1)).isSome := fun hm =>
    buildStep_preserves rd A s2 (target - 12) (target - 1)
      (buildStep_establishes rd s1 (target - 1) hm)
  have hY : (target - 12) ∈ A → (s3.lookup (target - 12)).isSome := fun hy =>
    buildStep_establishes rd s2 (target - 12) hy
  obtain ⟨t1, ht1⟩ := Option.isSome_iff_exists.mp hT
  by_cases hm : (target - 1) ∈ A <;> by_cases hy : (target - 12) ∈ A
  · obtain ⟨t2, ht2⟩ := Option.isSome_iff_exists.mp (hM hm)
    obtain ⟨t3, ht3⟩ := Option.isSome_iff_exists.mp (hY hy)
    rw [if_pos ⟨hm, hM hm⟩, if_pos ⟨hy, hY hy⟩, ht1, ht2, ht3]
    refine ⟨_, rfl, rfl, by simp [hm], by simp [hy], ?_, ?_⟩
    · intro oc c hoc hc
      exact compareTwoMonths_months t1 t2 target (target - 1) c
        ((Option.some.inj hoc).trans hc)
    · intro oc c hoc hc
      exact compareTwoMonths_months t1 t3 target (target - 12) c
        ((Option.some.inj hoc).trans hc)
  · obtain ⟨t2, ht2⟩ := Option.isSome_iff_exists.mp (hM hm)
    rw [if_pos ⟨hm, hM hm⟩, if_neg (fun hc => hy hc.1), ht1, ht2]
    refine ⟨_, rfl, rfl, by simp [hm], by simp [hy], ?_, ?_⟩
    · intro oc c hoc hc
      exact compareTwoMonths_months t1 t2 target (target - 1) c
        ((Option.some.inj hoc).trans hc)
    · intro oc c hoc hc
      exact Option.noConfusion hoc
  · obtain ⟨t3, ht3⟩ := Option.isSome_iff_exists.mp (hY hy)
    rw [if_neg (fun hc => hm hc.1), if_pos ⟨hy, hY hy⟩, ht1, ht3]
    refine ⟨_, rfl, rfl, by simp [hm], by simp [hy], ?_, ?_⟩
    · intro oc c hoc hc
      exact Option.noConfusion hoc
    · intro oc c hoc hc
      exact compareTwoMonths_months t1 t3 target (target - 12) c
        ((Option.some.inj hoc).trans hc)
  · rw [if_neg (fun hc => hm hc.1), if_neg (fun hc => hy hc.1)]
    refine ⟨_, rfl, rfl, by simp [hm], by simp [hy], ?_, ?_⟩
    · intro oc c hoc hc
      exact Option.noConfusion hoc
    · intro oc c hoc hc
      exact Option.noConfusion hoc

/-- Witness for C4: month 24 is available, month 23 (MoM companion) is
available, month 12 (YoY companion) is not. -/
theorem period_alignment_witness :
    (24 : Month) ∈ availableMonths rdW.orders ∧
    (∃ res, analyzePeriodComparison rdW [] 24 = some res ∧
      res.target_month = 24 ∧
      (res.mom_comparison.isSome ↔ (24 - 1 : Month) ∈ availableMonths rdW.orders) ∧
      (res.yoy_comparison.isSome ↔ (24 - 12 : Month) ∈ availableMonths rdW.orders) ∧
      (∀ oc c, res.mom_comparison = some oc → oc = some c →
        c.month1 = 24 ∧ c.month2 = 24 - 1) ∧
      (∀ oc c, res.yoy_comparison = some oc → oc = some c →
        c.month1 = 24 ∧ c.month2 = 24 - 12)) :=
  ⟨by decide, period_alignment rdW [] 24 (by decide)⟩

/-! ### Helper lemmas for the trajectory analyzer -/

theorem popVariance_nonneg (xs : List ℚ) : 0 ≤ popVariance xs := by
  apply div_nonneg
  · apply List.sum_nonneg
    intro x hx
    obtain ⟨y, _, rfl⟩ := List.mem_map.mp hx
    exact sq_nonneg _
  · exact Nat.cast_nonneg _

theorem volatilitySq_nonneg (xs : List ℚ) : 0 ≤ volatilitySq xs := by
  rw [volatilitySq]
  split_ifs
  · exact popVariance_nonneg xs
  · exact le_refl 0

/-- The source's threshold test `volatility > 0.5` (on `np.std`), phrased
on the squared volatility. -/
theorem sqrt_volatility_gt_half_iff (xs : List ℚ) :
    1/2 < Real.sqrt ((volatilitySq xs : ℚ) : ℝ) ↔ 1/4 < volatilitySq xs := by
  rw [Real.lt_sqrt (by norm_num : (0:ℝ) ≤ 1/2)]
  rw [show ((1:ℝ)/2) ^ 2 = (((1:ℚ)/4 : ℚ) : ℝ) by norm_num]
  exact Rat.cast_lt

theorem sum_mul_replicate (l : List ℚ) (c : ℚ) :
    ((l.zip (List.replicate l.length c)).map fun p => p.1 * p.2).sum = l.sum * c := by
  induction l with
  | nil => simp
  | cons x t ih =>
    simp only [List.length_cons, List.replicate_succ, List.zip_cons_cons, List.map_cons,
      List.sum_cons, ih]
    ring

theorem listMean_replicate (n : ℕ) (c : ℚ) (hn : n ≠ 0) :
    listMean (List.replicate n c) = c := by
  rw [listMean, List.sum_replicate, List.length_replicate, nsmul_eq_mul]
  exact mul_div_cancel_left₀ c (Nat.cast_ne_zero.mpr hn)

theorem popVariance_replicate (n : ℕ) (c : ℚ) : popVariance (List.replicate n c) = 0 := by
  cases n with
  | zero => simp [popVariance, listMean]
  | succ m =>
    rw [popVariance, listMean_replicate (m + 1) c (Nat.succ_ne_zero m), List.map_replicate]
    simp [List.sum_replicate]

theorem olsSlope_replicate (n : ℕ) (c : ℚ) : olsSlope (List.replicate n c) = 0 := by
  have hidx : ((List.range n).map fun i : ℕ => (i : ℚ)).length = n := by
    rw [List.length_map, List.length_range]
  have hz := sum_mul_replicate ((List.range n).map fun i : ℕ => (i : ℚ)) c
  rw [hidx] at hz
  simp only [olsSlope, List.length_replicate, List.sum_replicate, hz, nsmul_eq_mul]
  exact div_eq_zero_iff.mpr (Or.inl (by ring))

theorem trend_replicate (n : ℕ) (c : ℚ) : trend (List.replicate n c) = 0 := by
  rw [trend]
  split_ifs
  · exact olsSlope_replicate n c
  · rfl

theorem volatilitySq_replicate (n : ℕ) (c : ℚ) :
    volatilitySq (List.replicate n c) = 0 := by
  rw [volatilitySq]
  split_ifs
  · exact popVariance_replicate n c
  · rfl

/-! ### Claim C6: trajectory classification -/

/-- C6: `trajectory_type` is determined exactly by the thresholds — trend
above 0.1 is a continuous rise, below −0.1 a continuous decline,
otherwise volatility (`np.std`, recovered here as the square root of
`volatilitySq`) above 0.5 is a frequent fluctuation, otherwise stable.
The tier path Basic→Bronze→Silver→Gold over four consecutive months has
trend 1.0, volatility √1.25 ≈ 1.118 (strictly between 1.118 and 1.119)
and classifies as a continuous rise; a constant path has volatility 0 and
classifies as stable. -/
theorem trajectory_classification :
    (∀ xs : List ℚ,
      (trajectoryType xs = .rise ↔ 1/10 < trend xs) ∧
      (trajectoryType xs = .decline ↔ trend xs < -(1/10)) ∧
      (trajectoryType xs = .fluctuation ↔
        (trend xs ≤ 1/10 ∧ -(1/10) ≤ trend xs ∧
          1/2 < Real.sqrt ((volatilitySq xs : ℚ) : ℝ))) ∧
      (trajectoryType xs = .stable ↔
        (trend xs ≤ 1/10 ∧ -(1/10) ≤ trend xs ∧
          Real.sqrt ((volatilitySq xs : ℚ) : ℝ) ≤ 1/2))) ∧
    trend (ordSeq [.Basic, .Bronze, .Silver, .Gold]) = 1 ∧
    volatilitySq (ordSeq [.Basic, .Bronze, .Silver, .Gold]) = 5/4 ∧
    1118/1000 < Real.sqrt ((volatilitySq (ordSeq [.Basic, .Bronze, .Silver, .Gold]) : ℚ) : ℝ) ∧
    Real.sqrt ((volatilitySq (ordSeq [.Basic, .Bronze, .Silver, .Gold]) : ℚ) : ℝ) < 1119/1000 ∧
    trajectoryType (ordSeq [.Basic, .Bronze, .Silver, .Gold]) = .rise ∧
    (∀ (n : ℕ) (c : ℚ), volatilitySq (List.replicate n c) = 0 ∧
      trajectoryType (List.replicate n c) = .stable) := by
  have hseq : ordSeq [.Basic, .Bronze, .Silver, .Gold] = [0, 1, 2, 3] := by
    simp [ordSeq, Tier.ord]
  have htrend : trend (ordSeq [.Basic, .Bronze, .Silver, .Gold]) = 1 := by
    rw [hseq]
    norm_num [trend, olsSlope, List.range_succ]
  have hvol : volatilitySq (ordSeq [.Basic, .Bronze, .Silver, .Gold]) = 5/4 := by
    rw [hseq]
    norm_num [volatilitySq, popVariance, listMean]
  refine ⟨?_, htrend, hvol, ?_, ?_, ?_, ?_⟩
  · intro xs
    have hbridge := sqrt_volatility_gt_half_iff xs
    rw [trajectoryType]
    split_ifs with h1 h2 h3
    · exact ⟨iff_of_true rfl h1,
        iff_of_false (by decide) (by intro hx; linarith),
        iff_of_false (by decide) (fun hx => absurd h1 (not_lt.mpr hx.1)),
        iff_of_false (by decide) (fun hx => absurd h1 (not_lt.mpr hx.1))⟩
    · exact ⟨iff_of_false (by decide) h1,
        iff_of_true rfl h2,
        iff_of_false (by decide) (fun hx => absurd h2 (not_lt.mpr hx.2.1)),
        iff_of_false (by decide) (fun hx => absurd h2 (not_lt.mpr hx.2.1))⟩
    · exact ⟨iff_of_false (by decide) h1,
        iff_of_false (by decide) h2,
        iff_of_true rfl ⟨not_lt.mp h1, not_lt.mp h2, hbridge.mpr h3⟩,
        iff_of_false (by decide)
          (fun hx => absurd (hbridge.mpr h3) (not_lt.mpr hx.2.2))⟩
    · exact ⟨iff_of_false (by decide) h1,
        iff_of_false (by decide) h2,
        iff_of_false (by decide) (fun hx => absurd (hbridge.mp hx.2.2) h3),
        iff_of_true rfl ⟨not_lt.mp h1, not_lt.mp h2,
          not_lt.mp (fun hs => h3 (hbridge.mp hs))⟩⟩
  · rw [hvol]
    rw [Real.lt_sqrt (by norm_num : (0:ℝ) ≤ 1118/1000)]
    rw [show (((5:ℚ)/4 : ℚ) : ℝ) = (5:ℝ)/4 by norm_num]
    norm_num
  · rw [hvol]
    rw [Real.sqrt_lt' (by norm_num : (0:ℝ) < 1119/1000)]
    rw [show (((5:ℚ)/4 : ℚ) : ℝ) = (5:ℝ)/4 by norm_num]
    norm_num
  · rw [trajectoryType, htrend]
    norm_num
  · intro n c
    refine ⟨volatilitySq_replicate n c, ?_⟩
    rw [trajectoryType, trend_replicate, volatilitySq_replicate]
    norm_num

/-- Witness for C6 on the concrete rising tier path. -/
theorem trajectory_classification_witness :
    trajectoryType (ordSeq [.Basic, .Bronze, .Silver, .Gold]) = .rise ↔
      1/10 < trend (ordSeq [.Basic, .Bronze, .Silver, .Gold]) :=
  (trajectory_classification.1 (ordSeq [.Basic, .Bronze, .Silver, .Gold])).1

end Olist
